import Mathlib

/-!
Shallow embedding of the BSL (BabylonJS Shading Language) facade:
a single file of factory functions over the BabylonJS Node Material API.
Each factory allocates one or two graph blocks, assigns declarative
properties, wires caller-supplied connection points, and returns the
resulting block or output connection point.

The embedding models the host engine's mutable object graph by explicit
state passing: a `GraphState` holds the blocks allocated so far (fresh
ids from a counter) and the list of wires created by `connectTo` calls,
in order. Each TypeScript factory becomes a Lean function from its
arguments and a pre-state to its TypeScript return value (a connection
point or a block) paired with the post-state.
-/

namespace BSL

/-- The `Stage` constant of the source: re-export of the host's
`NodeMaterialBlockTargets` enum. -/
inductive Stage
  | VERT
  | FRAG
  | VERT_AND_FRAG
  | NEUTRAL
deriving DecidableEq, Repr, Inhabited

/-- Host system values used by the uniform factories
(`NodeMaterialSystemValues`). -/
inductive SystemValue
  | CameraPosition
  | View
  | ViewProjection
  | World
deriving DecidableEq, Repr, Inhabited

/-- Host `TrigonometryBlockOperations` (only `Fract` is used). -/
inductive TrigOp
  | Fract
deriving DecidableEq, Repr, Inhabited

/-- The host block classes instantiated by the facade. -/
inductive BlockKind
  | InputBlock
  | TextureBlock
  | FragmentOutputBlock
  | PerturbNormalBlock
  | MultiplyBlock
  | PBRMetallicRoughnessBlock
  | ScaleBlock
  | TransformBlock
  | TrigonometryBlock
  | VectorMergerBlock
  | VectorSplitterBlock
  | VertexOutputBlock
deriving DecidableEq, Repr, Inhabited

/-- A Babylon vector literal (`Vector2 | Vector3 | Vector4`); components
modelled as integers since the facade never computes with them. -/
inductive BVector
  | vector2 (x y : Int)
  | vector3 (x y z : Int)
  | vector4 (x y z w : Int)
deriving DecidableEq, Repr, Inhabited

/-- A value assignable to an input block: a number or a vector literal. -/
inductive BValue
  | num (v : Int)
  | vec (v : BVector)
deriving DecidableEq, Repr, Inhabited

/-- An opaque host texture resource, identified by id. -/
structure Texture where
  id : Nat
deriving DecidableEq, Repr, Inhabited

/-- A connection point (socket): a named port on the block with the given
allocation id. Port names are the TypeScript property names
("output", "uv", "x", "xyOut", "rgb", "lighting", ...). -/
structure Socket where
  blockId : Nat
  port : String
deriving DecidableEq, Repr, Inhabited

/-- One allocated host block. `none` in an `Option` field models a
property the factory never assigned (left `undefined` by the host
constructor as far as the facade is concerned). -/
structure Block where
  id : Nat
  kind : BlockKind
  name : String
  target : Option Stage := none
  convertToLinearSpace : Option Bool := none
  convertToGammaSpace : Option Bool := none
  disableLevelMultiplication : Option Bool := none
  complementZ : Option Int := none
  complementW : Option Int := none
  useEnergyConservation : Option Bool := none
  useRadianceOcclusion : Option Bool := none
  useHorizonOcclusion : Option Bool := none
  isConstant : Option Bool := none
  matrixMode : Option Int := none
  value : Option BValue := none
  texture : Option Texture := none
  systemValue : Option SystemValue := none
  attributeName : Option String := none
  operation : Option TrigOp := none
deriving DecidableEq, Repr, Inhabited

/-- A wire created by `connectTo`: (source output socket, destination
input socket). -/
abbrev Wire := Socket × Socket

/-- The implicit graph: allocated blocks (most recent first), wires in
creation order, and the next fresh allocation id. -/
structure GraphState where
  nextId : Nat := 0
  blocks : List Block := []
  wires : List Wire := []
deriving DecidableEq, Repr, Inhabited

/-- Allocation of a `new ...Block(...)`: record the block, bump the id
counter. Factories construct the block with `id := st.nextId`. -/
def addBlock (b : Block) (st : GraphState) : GraphState :=
  { st with nextId := st.nextId + 1, blocks := b :: st.blocks }

/-- `src.connectTo(dst)`: append one wire. -/
def connectTo (src dst : Socket) (st : GraphState) : GraphState :=
  { st with wires := st.wires ++ [(src, dst)] }

/-- The wires a computation added on top of a pre-state (the suffix of
the wire list past the pre-state's wires). -/
def GraphState.wiresAddedSince (st' st : GraphState) : List Wire :=
  st'.wires.drop st.wires.length

/-- `uniformCameraPosition()`. -/
def uniformCameraPosition (st : GraphState) : Socket × GraphState :=
  let cameraPosition : Block :=
    { id := st.nextId, kind := .InputBlock, name := "cameraPosition",
      target := some .VERT_AND_FRAG, systemValue := some .CameraPosition }
  (⟨cameraPosition.id, "output"⟩, addBlock cameraPosition st)

/-- `uniformView()`. -/
def uniformView (st : GraphState) : Socket × GraphState :=
  let view : Block :=
    { id := st.nextId, kind := .InputBlock, name := "view",
      target := some .VERT_AND_FRAG, systemValue := some .View }
  (⟨view.id, "output"⟩, addBlock view st)

/-- `uniformViewProjection()`. -/
def uniformViewProjection (st : GraphState) : Socket × GraphState :=
  let ViewProjection : Block :=
    { id := st.nextId, kind := .InputBlock, name := "ViewProjection",
      target := some .VERT_AND_FRAG, systemValue := some .ViewProjection }
  (⟨ViewProjection.id, "output"⟩, addBlock ViewProjection st)

/-- `uniformWorld()`. -/
def uniformWorld (st : GraphState) : Socket × GraphState :=
  let world : Block :=
    { id := st.nextId, kind := .InputBlock, name := "world",
      target := some .VERT_AND_FRAG, systemValue := some .World }
  (⟨world.id, "output"⟩, addBlock world st)

/-- `vertexAttribute(name)`: an attribute input block targeted at the
vertex stage; returns its output socket. -/
def vertexAttribute (name : String) (st : GraphState) : Socket × GraphState :=
  let position : Block :=
    { id := st.nextId, kind := .InputBlock, name := name,
      target := some .VERT, attributeName := some name }
  (⟨position.id, "output"⟩, addBlock position st)

/-- `float(value)`. -/
def float (value : Int) (st : GraphState) : Socket × GraphState :=
  let inputBlock : Block :=
    { id := st.nextId, kind := .InputBlock, name := "float",
      target := some .VERT_AND_FRAG, value := some (.num value) }
  (⟨inputBlock.id, "output"⟩, addBlock inputBlock st)

/-- `constFloat(name, value)`. -/
def constFloat (name : String) (value : Int) (st : GraphState) : Socket × GraphState :=
  let inputBlock : Block :=
    { id := st.nextId, kind := .InputBlock, name := name,
      target := some .VERT_AND_FRAG, value := some (.num value),
      isConstant := some true }
  (⟨inputBlock.id, "output"⟩, addBlock inputBlock st)

/-- `uniformFloat(name, value)`. -/
def uniformFloat (name : String) (value : Int) (st : GraphState) : Socket × GraphState :=
  let inputBlock : Block :=
    { id := st.nextId, kind := .InputBlock, name := name,
      target := some .VERT_AND_FRAG, value := some (.num value),
      matrixMode := some 0 }
  (⟨inputBlock.id, "output"⟩, addBlock inputBlock st)

/-- `Partial<TextureBlockProps>`: each boolean may be absent. -/
structure TextureBlockPropsPartial where
  convertToLinearSpace : Option Bool := none
  convertToGammaSpace : Option Bool := none
  disableLevelMultiplication : Option Bool := none
deriving DecidableEq, Repr, Inhabited

/-- `sampleTexture(texture, uv, props?)`: a texture block with the three
booleans resolved by `props?.field ?? false`, wired from the uv socket,
returning the block itself. -/
def sampleTexture (texture : Texture) (uv : Socket)
    (props : Option TextureBlockPropsPartial) (st : GraphState) :
    Block × GraphState :=
  let textureBlock : Block :=
    { id := st.nextId, kind := .TextureBlock, name := "texture",
      target := some .VERT_AND_FRAG,
      convertToGammaSpace :=
        some ((props.bind fun p => p.convertToGammaSpace).getD false),
      convertToLinearSpace :=
        some ((props.bind fun p => p.convertToLinearSpace).getD false),
      disableLevelMultiplication :=
        some ((props.bind fun p => p.disableLevelMultiplication).getD false),
      texture := some texture }
  let st1 := addBlock textureBlock st
  let st2 := connectTo uv ⟨textureBlock.id, "uv"⟩ st1
  (textureBlock, st2)

/-- `transformPosition(transformMat4, positionVec3, stage)`: a transform
block with complementZ = 0 and complementW = 1 (affine point transform). -/
def transformPosition (transformMat4 positionVec3 : Socket) (stage : Stage)
    (st : GraphState) : Socket × GraphState :=
  let transformBlock : Block :=
    { id := st.nextId, kind := .TransformBlock, name := "TransformPosition",
      target := some stage, complementZ := some 0, complementW := some 1 }
  let st1 := addBlock transformBlock st
  let st2 := connectTo positionVec3 ⟨transformBlock.id, "vector"⟩ st1
  let st3 := connectTo transformMat4 ⟨transformBlock.id, "transform"⟩ st2
  (⟨transformBlock.id, "output"⟩, st3)

/-- `transformDirection(transformMat4, directionVec3, stage)`: a transform
block with complementZ = 0 and complementW = 0 (linear transform). -/
def transformDirection (transformMat4 directionVec3 : Socket) (stage : Stage)
    (st : GraphState) : Socket × GraphState :=
  let transformBlock : Block :=
    { id := st.nextId, kind := .TransformBlock, name := "TransformDirection",
      target := some stage, complementZ := some 0, complementW := some 0 }
  let st1 := addBlock transformBlock st
  let st2 := connectTo directionVec3 ⟨transformBlock.id, "vector"⟩ st1
  let st3 := connectTo transformMat4 ⟨transformBlock.id, "transform"⟩ st2
  (⟨transformBlock.id, "output"⟩, st3)

/-- `fract(input, stage)`. -/
def fract (input : Socket) (stage : Stage) (st : GraphState) :
    Socket × GraphState :=
  let fractBlock : Block :=
    { id := st.nextId, kind := .TrigonometryBlock, name := "fract",
      target := some stage, operation := some .Fract }
  let st1 := addBlock fractBlock st
  let st2 := connectTo input ⟨fractBlock.id, "input"⟩ st1
  (⟨fractBlock.id, "output"⟩, st2)

/-- `mul(input, factor, stage)`. -/
def mul (input factor : Socket) (stage : Stage) (st : GraphState) :
    Socket × GraphState :=
  let scaleBlock : Block :=
    { id := st.nextId, kind := .ScaleBlock, name := "Position to UV scale",
      target := some stage }
  let st1 := addBlock scaleBlock st
  let st2 := connectTo input ⟨scaleBlock.id, "input"⟩ st1
  let st3 := connectTo factor ⟨scaleBlock.id, "factor"⟩ st2
  (⟨scaleBlock.id, "output"⟩, st3)

/-- `mulVec(left, right, stage)`: a multiply block named "scaledMeshUV". -/
def mulVec (left right : Socket) (stage : Stage) (st : GraphState) :
    Socket × GraphState :=
  let multBlock : Block :=
    { id := st.nextId, kind := .MultiplyBlock, name := "scaledMeshUV",
      target := some stage }
  let st1 := addBlock multBlock st
  let st2 := connectTo left ⟨multBlock.id, "left"⟩ st1
  let st3 := connectTo right ⟨multBlock.id, "right"⟩ st2
  (⟨multBlock.id, "output"⟩, st3)

/-- `merge(x, y, z, w, stage)`: a vector merger; x and y always wired,
z and w wired only when non-null; returns the merger block. -/
def merge (x y : Socket) (z w : Option Socket) (stage : Stage)
    (st : GraphState) : Block × GraphState :=
  let merger : Block :=
    { id := st.nextId, kind := .VectorMergerBlock, name := "Merge",
      target := some stage }
  let st1 := addBlock merger st
  let st2 := connectTo x ⟨merger.id, "x"⟩ st1
  let st3 := connectTo y ⟨merger.id, "y"⟩ st2
  let st4 := match z with
    | some zs => connectTo zs ⟨merger.id, "z"⟩ st3
    | none => st3
  let st5 := match w with
    | some ws => connectTo ws ⟨merger.id, "w"⟩ st4
    | none => st4
  (merger, st5)

/-- `vecFromBabylon(vec)`: a constant input block named
"Mesh UV scale factor" holding the vector literal. -/
def vecFromBabylon (vec : BVector) (st : GraphState) : Socket × GraphState :=
  let meshUVScaleFactor : Block :=
    { id := st.nextId, kind := .InputBlock, name := "Mesh UV scale factor",
      isConstant := some true, value := some (.vec vec) }
  (⟨meshUVScaleFactor.id, "output"⟩, addBlock meshUVScaleFactor st)

/-- `vec2(x, y, stage)`: `merge(x, y, null, null, stage).xyOut`. -/
def vec2 (x y : Socket) (stage : Stage) (st : GraphState) :
    Socket × GraphState :=
  let r := merge x y none none stage st
  (⟨r.1.id, "xyOut"⟩, r.2)

/-- `vec3(x, y, z, stage)`: `merge(x, y, z, null, stage).xyzOut`. -/
def vec3 (x y z : Socket) (stage : Stage) (st : GraphState) :
    Socket × GraphState :=
  let r := merge x y (some z) none stage st
  (⟨r.1.id, "xyzOut"⟩, r.2)

/-- `vec4(x, y, z, w, stage)`: `merge(x, y, z, w, stage).xyzw`. -/
def vec4 (x y z w : Socket) (stage : Stage) (st : GraphState) :
    Socket × GraphState :=
  let r := merge x y (some z) (some w) stage st
  (⟨r.1.id, "xyzw"⟩, r.2)

/-- `splitVec2(inputVec2, stage)`: a vector splitter wired via xyIn,
returning the splitter block. -/
def splitVec2 (inputVec2 : Socket) (stage : Stage) (st : GraphState) :
    Block × GraphState :=
  let splitBlock : Block :=
    { id := st.nextId, kind := .VectorSplitterBlock, name := "splitVec2",
      target := some stage }
  let st1 := addBlock splitBlock st
  let st2 := connectTo inputVec2 ⟨splitBlock.id, "xyIn"⟩ st1
  (splitBlock, st2)

/-- `splitVec3(inputVec3, stage)`: a vector splitter wired via xyzIn,
returning the splitter block. -/
def splitVec3 (inputVec3 : Socket) (stage : Stage) (st : GraphState) :
    Block × GraphState :=
  let splitBlock : Block :=
    { id := st.nextId, kind := .VectorSplitterBlock, name := "splitVec3",
      target := some stage }
  let st1 := addBlock splitBlock st
  let st2 := connectTo inputVec3 ⟨splitBlock.id, "xyzIn"⟩ st1
  (splitBlock, st2)

/-- `xy(inputVec3, stage)`: splits the vec3 and returns the splitter's
`xyOut` socket directly. -/
def xy (inputVec3 : Socket) (stage : Stage) (st : GraphState) :
    Socket × GraphState :=
  let r := splitVec3 inputVec3 stage st
  (⟨r.1.id, "xyOut"⟩, r.2)

/-- `xz(inputVec3, stage)`: splits the vec3, then wires the splitter's x
output to a fresh merger's x port and the splitter's z output to the
merger's y port; returns the merger's `xyOut` socket. -/
def xz (inputVec3 : Socket) (stage : Stage) (st : GraphState) :
    Socket × GraphState :=
  let r := splitVec3 inputVec3 stage st
  let inputSplitted := r.1
  let outputXZ : Block :=
    { id := r.2.nextId, kind := .VectorMergerBlock, name := "OutputXZ",
      target := some stage }
  let st1 := addBlock outputXZ r.2
  let st2 := connectTo ⟨inputSplitted.id, "x"⟩ ⟨outputXZ.id, "x"⟩ st1
  let st3 := connectTo ⟨inputSplitted.id, "z"⟩ ⟨outputXZ.id, "y"⟩ st2
  (⟨outputXZ.id, "xyOut"⟩, st3)

/-- `perturbNormal(uv, positionWorldVec3, normalWorldVec3, normalTexture,
bumpStrengthFloat)`: fragment-stage perturb-normal block. -/
def perturbNormal (uv positionWorldVec3 normalWorldVec3 normalTexture
    bumpStrengthFloat : Socket) (st : GraphState) : Socket × GraphState :=
  let Perturbnormal : Block :=
    { id := st.nextId, kind := .PerturbNormalBlock, name := "Perturb normal",
      target := some .FRAG }
  let st1 := addBlock Perturbnormal st
  let st2 := connectTo uv ⟨Perturbnormal.id, "uv"⟩ st1
  let st3 := connectTo positionWorldVec3 ⟨Perturbnormal.id, "worldPosition"⟩ st2
  let st4 := connectTo normalWorldVec3 ⟨Perturbnormal.id, "worldNormal"⟩ st3
  let st5 := connectTo normalTexture ⟨Perturbnormal.id, "normalMapColor"⟩ st4
  let st6 := connectTo bumpStrengthFloat ⟨Perturbnormal.id, "strength"⟩ st5
  (⟨Perturbnormal.id, "output"⟩, st6)

/-- `pbrMetallicRoughnessMaterial(...)`: fragment-stage PBR block with
the three quality toggles enabled; the ambient-occlusion socket is wired
only when non-null; returns the `lighting` output socket. -/
def pbrMetallicRoughnessMaterial (albedoRgb metallicFloat roughnessFloat : Socket)
    (ambientOcclusionFloat : Option Socket)
    (perturbedNormalVec3 normalWorldVec3 viewMat4 cameraPositionVec3
      positionWorldVec3 : Socket) (st : GraphState) : Socket × GraphState :=
  let PBRMetallicRoughness : Block :=
    { id := st.nextId, kind := .PBRMetallicRoughnessBlock,
      name := "PBRMetallicRoughness", target := some .FRAG,
      useEnergyConservation := some true,
      useRadianceOcclusion := some true,
      useHorizonOcclusion := some true }
  let st1 := addBlock PBRMetallicRoughness st
  let st2 := connectTo albedoRgb ⟨PBRMetallicRoughness.id, "baseColor"⟩ st1
  let st3 := connectTo metallicFloat ⟨PBRMetallicRoughness.id, "metallic"⟩ st2
  let st4 := connectTo roughnessFloat ⟨PBRMetallicRoughness.id, "roughness"⟩ st3
  let st5 := match ambientOcclusionFloat with
    | some a => connectTo a ⟨PBRMetallicRoughness.id, "ambientOcc"⟩ st4
    | none => st4
  let st6 := connectTo perturbedNormalVec3 ⟨PBRMetallicRoughness.id, "perturbedNormal"⟩ st5
  let st7 := connectTo normalWorldVec3 ⟨PBRMetallicRoughness.id, "worldNormal"⟩ st6
  let st8 := connectTo viewMat4 ⟨PBRMetallicRoughness.id, "view"⟩ st7
  let st9 := connectTo cameraPositionVec3 ⟨PBRMetallicRoughness.id, "cameraPosition"⟩ st8
  let st10 := connectTo positionWorldVec3 ⟨PBRMetallicRoughness.id, "worldPosition"⟩ st9
  (⟨PBRMetallicRoughness.id, "lighting"⟩, st10)

/-- `OutputFragColorProps` (both fields required when the record is
passed at all). -/
structure OutputFragColorProps where
  convertToLinearSpace : Bool
  convertToGammaSpace : Bool
deriving DecidableEq, Repr, Inhabited

/-- `outputFragColor(colorRgb, props?)`: fragment output block; only the
`rgb` input is wired; returns the block. -/
def outputFragColor (colorRgb : Socket) (props : Option OutputFragColorProps)
    (st : GraphState) : Block × GraphState :=
  let FragmentOutput : Block :=
    { id := st.nextId, kind := .FragmentOutputBlock, name := "FragmentOutput",
      target := some .FRAG,
      convertToGammaSpace :=
        some ((props.map fun p => p.convertToGammaSpace).getD false),
      convertToLinearSpace :=
        some ((props.map fun p => p.convertToLinearSpace).getD false) }
  let st1 := addBlock FragmentOutput st
  let st2 := connectTo colorRgb ⟨FragmentOutput.id, "rgb"⟩ st1
  (FragmentOutput, st2)

/-- `outputVertexPosition(positionVec4)`: vertex output block wired via
its `vector` input; returns the block. -/
def outputVertexPosition (positionVec4 : Socket) (st : GraphState) :
    Block × GraphState :=
  let VertexOutput : Block :=
    { id := st.nextId, kind := .VertexOutputBlock, name := "VertexOutput",
      target := some .VERT }
  let st1 := addBlock VertexOutput st
  let st2 := connectTo positionVec4 ⟨VertexOutput.id, "vector"⟩ st1
  (VertexOutput, st2)

/-- A run from `st` to `post` allocated exactly one fresh block: the id
counter advanced by one, the block list gained exactly one block at the
head, and that block carries the previously fresh id. -/
def FreshOne (st post : GraphState) : Prop :=
  post.nextId = st.nextId + 1
  ∧ post.blocks = post.blocks.headI :: st.blocks
  ∧ post.blocks.headI.id = st.nextId

/-- A run from `st` to `post` allocated exactly two fresh blocks (the
shape of `xz`): the id counter advanced by two and the two new head
blocks carry the two previously fresh ids. -/
def FreshTwo (st post : GraphState) : Prop :=
  post.nextId = st.nextId + 2
  ∧ post.blocks = post.blocks.headI :: post.blocks.tail.headI :: st.blocks
  ∧ post.blocks.headI.id = st.nextId + 1
  ∧ post.blocks.tail.headI.id = st.nextId

end BSL

namespace BSL

/-- When a run only appended `delta` to the wire list, the wires added
since the pre-state are exactly `delta`. -/
theorem wiresAddedSince_of_eq {st st' : GraphState} {delta : List Wire}
    (h : st'.wires = st.wires ++ delta) : st'.wiresAddedSince st = delta := by
  simp [GraphState.wiresAddedSince, h, List.drop_left]

/-- Claim C1: a `sampleTexture` call with the options record omitted
creates a texture node with `convertToLinearSpace`, `convertToGammaSpace`
and `disableLevelMultiplication` all false; when a record is supplied,
each omitted field resolves to false and each supplied field takes the
supplied value (`p.field.getD false`). -/
theorem sampleTexture_option_defaults (tex : Texture) (uv : Socket)
    (st : GraphState) (p : TextureBlockPropsPartial) :
    ((sampleTexture tex uv none st).1.convertToLinearSpace = some false
      ∧ (sampleTexture tex uv none st).1.convertToGammaSpace = some false
      ∧ (sampleTexture tex uv none st).1.disableLevelMultiplication = some false)
    ∧ ((sampleTexture tex uv (some p) st).1.convertToLinearSpace
          = some (p.convertToLinearSpace.getD false)
      ∧ (sampleTexture tex uv (some p) st).1.convertToGammaSpace
          = some (p.convertToGammaSpace.getD false)
      ∧ (sampleTexture tex uv (some p) st).1.disableLevelMultiplication
          = some (p.disableLevelMultiplication.getD false))
    ∧ (sampleTexture tex uv none st).2.blocks.headI
        = (sampleTexture tex uv none st).1 := by
  exact ⟨⟨rfl, rfl, rfl⟩, ⟨rfl, rfl, rfl⟩, rfl⟩

/-- Claim C2: `outputFragColor` always creates its sink node with target
the fragment stage, and `vertexAttribute` always creates its source
node (an input block carrying the attribute) with target the vertex
stage; the returned socket of `vertexAttribute` is that node's output. -/
theorem outputFragColor_fragment_and_vertexAttribute_vertex
    (colorRgb : Socket) (props : Option OutputFragColorProps)
    (name : String) (st st' : GraphState) :
    ((outputFragColor colorRgb props st).1.target = some Stage.FRAG
      ∧ (outputFragColor colorRgb props st).1.kind = BlockKind.FragmentOutputBlock
      ∧ (outputFragColor colorRgb props st).2.blocks.headI
          = (outputFragColor colorRgb props st).1)
    ∧ ((vertexAttribute name st').2.blocks.headI.target = some Stage.VERT
      ∧ (vertexAttribute name st').2.blocks.headI.kind = BlockKind.InputBlock
      ∧ (vertexAttribute name st').2.blocks.headI.attributeName = some name
      ∧ (vertexAttribute name st').1
          = ⟨(vertexAttribute name st').2.blocks.headI.id, "output"⟩) := by
  exact ⟨⟨rfl, rfl, rfl⟩, ⟨rfl, rfl, rfl, rfl⟩⟩

end BSL

namespace BSL

/-- Claim C3: every `merge` call wires its x and y arguments to the fresh
merger's x and y ports; the z port receives a wire exactly when a
non-null z socket is passed (and then it carries that socket), likewise
for w; `vec2`/`vec3`/`vec4` are built directly on `merge`. -/
theorem merge_xy_always_zw_optional (x y : Socket) (z w : Option Socket)
    (zz ww : Socket) (stage : Stage) (st : GraphState) :
    ((merge x y z w stage st).2.wiresAddedSince st
        = [(x, ⟨(merge x y z w stage st).1.id, "x"⟩),
           (y, ⟨(merge x y z w stage st).1.id, "y"⟩)]
          ++ (match z with
              | some zs => [(zs, (⟨(merge x y z w stage st).1.id, "z"⟩ : Socket))]
              | none => [])
          ++ (match w with
              | some ws => [(ws, (⟨(merge x y z w stage st).1.id, "w"⟩ : Socket))]
              | none => []))
    ∧ ((∃ s, (s, (⟨(merge x y z w stage st).1.id, "z"⟩ : Socket))
          ∈ (merge x y z w stage st).2.wiresAddedSince st) ↔ z.isSome = true)
    ∧ ((∃ s, (s, (⟨(merge x y z w stage st).1.id, "w"⟩ : Socket))
          ∈ (merge x y z w stage st).2.wiresAddedSince st) ↔ w.isSome = true)
    ∧ vec2 x y stage st
        = (⟨(merge x y none none stage st).1.id, "xyOut"⟩,
           (merge x y none none stage st).2)
    ∧ vec3 x y zz stage st
        = (⟨(merge x y (some zz) none stage st).1.id, "xyzOut"⟩,
           (merge x y (some zz) none stage st).2)
    ∧ vec4 x y zz ww stage st
        = (⟨(merge x y (some zz) (some ww) stage st).1.id, "xyzw"⟩,
           (merge x y (some zz) (some ww) stage st).2) := by
  refine ⟨?_, ?_, ?_, rfl, rfl, rfl⟩ <;>
    cases z <;> cases w <;>
      simp [merge, connectTo, addBlock, GraphState.wiresAddedSince,
        List.append_assoc, List.drop_left, Socket.mk.injEq]

end BSL

namespace BSL

/-- Claim C5 counterexample: on a concrete input, `xy` allocates exactly
one block — a vector splitter, not a merger — and returns that
splitter's own `xyOut` socket, so `xy` is not built by splitting then
re-merging into a fresh merger. -/
theorem xy_creates_no_merger_on_concrete_input :
    (((xy ⟨0, "output"⟩ Stage.FRAG { nextId := 1 }).2.blocks.map
        fun b => b.kind) = [BlockKind.VectorSplitterBlock])
    ∧ (xy ⟨0, "output"⟩ Stage.FRAG { nextId := 1 }).1
        = ⟨(xy ⟨0, "output"⟩ Stage.FRAG { nextId := 1 }).2.blocks.headI.id,
           "xyOut"⟩
    ∧ (xy ⟨0, "output"⟩ Stage.FRAG { nextId := 1 }).2.blocks.length = 1 := by
  exact ⟨rfl, rfl, rfl⟩

/-- Claim C5 (amended): for every vec3 socket v and stage s, `xy(v, s)`
constructs only a splitter on v (wired through its xyzIn input) and
returns the splitter's own two-component `xyOut` socket directly; no
merger block is created and no re-merging occurs. -/
theorem xy_returns_splitter_xyOut (v : Socket) (stage : Stage)
    (st : GraphState) :
    xy v stage st
        = (⟨(splitVec3 v stage st).1.id, "xyOut"⟩, (splitVec3 v stage st).2)
    ∧ (xy v stage st).2.blocks.length = st.blocks.length + 1
    ∧ (xy v stage st).2.blocks.headI.kind = BlockKind.VectorSplitterBlock
    ∧ (xy v stage st).2.blocks.headI.name = "splitVec3"
    ∧ (xy v stage st).2.wiresAddedSince st
        = [(v, ⟨(xy v stage st).2.blocks.headI.id, "xyzIn"⟩)] := by
  refine ⟨rfl, rfl, rfl, rfl, ?_⟩
  simp [xy, splitVec3, connectTo, addBlock, GraphState.wiresAddedSince,
    List.drop_left]

end BSL

namespace BSL

/-- Claim C4: `xz(v, s)` builds a splitter on v and a fresh merger,
wires the splitter's x output to the merger's first (x) port and the
splitter's z output to the merger's second (y) port, never wires or
reads the splitter's y output (given that the caller's socket v belongs
to an already-allocated block), and returns the merger's two-component
`xyOut` socket — the same wires and the same returned components as
manually splitting v and merging its x and z outputs. -/
theorem xz_split_then_select_equiv (v : Socket) (stage : Stage)
    (st : GraphState) (hv : v.blockId < st.nextId) :
    (xz v stage st).2.wiresAddedSince st
        = [(v, ⟨st.nextId, "xyzIn"⟩),
           ((⟨st.nextId, "x"⟩ : Socket), (⟨st.nextId + 1, "x"⟩ : Socket)),
           ((⟨st.nextId, "z"⟩ : Socket), (⟨st.nextId + 1, "y"⟩ : Socket))]
    ∧ (xz v stage st).2.blocks.headI.kind = BlockKind.VectorMergerBlock
    ∧ (xz v stage st).2.blocks.headI.id = st.nextId + 1
    ∧ (xz v stage st).2.blocks.tail.headI.kind = BlockKind.VectorSplitterBlock
    ∧ (xz v stage st).2.blocks.tail.headI.id = st.nextId
    ∧ (xz v stage st).1 = ⟨st.nextId + 1, "xyOut"⟩
    ∧ ((⟨st.nextId, "y"⟩ : Socket)
        ∉ ((xz v stage st).2.wiresAddedSince st).map Prod.fst)
    ∧ ((⟨st.nextId, "y"⟩ : Socket)
        ∉ ((xz v stage st).2.wiresAddedSince st).map Prod.snd)
    ∧ (xz v stage st).2.wires
        = (merge ⟨(splitVec3 v stage st).1.id, "x"⟩
            ⟨(splitVec3 v stage st).1.id, "z"⟩ none none stage
            (splitVec3 v stage st).2).2.wires
    ∧ (xz v stage st).1
        = ⟨(merge ⟨(splitVec3 v stage st).1.id, "x"⟩
              ⟨(splitVec3 v stage st).1.id, "z"⟩ none none stage
              (splitVec3 v stage st).2).1.id, "xyOut"⟩ := by
  have hne : ((⟨st.nextId, "y"⟩ : Socket)) ≠ v := by
    intro h
    have hb : st.nextId = v.blockId := congrArg Socket.blockId h
    omega
  refine ⟨?_, rfl, rfl, rfl, rfl, rfl, ?_, ?_, rfl, rfl⟩ <;>
    simp [xz, splitVec3, connectTo, addBlock, GraphState.wiresAddedSince,
      List.append_assoc, List.drop_left, Socket.mk.injEq, hne]

/-- Claim C4 witness: the theorem applied at a concrete socket and state
(the socket's block id 0 is below the state's fresh counter 1). -/
theorem xz_split_then_select_equiv_witness :
    ((⟨1, "y"⟩ : Socket)
        ∉ ((xz ⟨0, "output"⟩ Stage.FRAG { nextId := 1 }).2.wiresAddedSince
            { nextId := 1 }).map Prod.fst) :=
  (xz_split_then_select_equiv ⟨0, "output"⟩ Stage.FRAG { nextId := 1 }
    (by decide)).2.2.2.2.2.2.1

end BSL

namespace BSL

/-- Claim C6: `transformPosition` creates a transform block with
complementW = 1 and complementZ = 0 (affine point transform) and
`transformDirection` one with complementW = 0 (and complementZ = 0,
linear transform); both wire the vector argument to the block's vector
input and the matrix argument to its transform input, and return the
block's output socket. -/
theorem transformPosition_w1_transformDirection_w0
    (mat vec : Socket) (stage : Stage) (st : GraphState) :
    ((transformPosition mat vec stage st).2.blocks.headI.kind
        = BlockKind.TransformBlock
      ∧ (transformPosition mat vec stage st).2.blocks.headI.target = some stage
      ∧ (transformPosition mat vec stage st).2.blocks.headI.complementZ = some 0
      ∧ (transformPosition mat vec stage st).2.blocks.headI.complementW = some 1
      ∧ (transformPosition mat vec stage st).2.wiresAddedSince st
          = [(vec, ⟨st.nextId, "vector"⟩), (mat, ⟨st.nextId, "transform"⟩)]
      ∧ (transformPosition mat vec stage st).1 = ⟨st.nextId, "output"⟩)
    ∧ ((transformDirection mat vec stage st).2.blocks.headI.kind
        = BlockKind.TransformBlock
      ∧ (transformDirection mat vec stage st).2.blocks.headI.target = some stage
      ∧ (transformDirection mat vec stage st).2.blocks.headI.complementZ = some 0
      ∧ (transformDirection mat vec stage st).2.blocks.headI.complementW = some 0
      ∧ (transformDirection mat vec stage st).2.wiresAddedSince st
          = [(vec, ⟨st.nextId, "vector"⟩), (mat, ⟨st.nextId, "transform"⟩)]
      ∧ (transformDirection mat vec stage st).1 = ⟨st.nextId, "output"⟩) := by
  refine ⟨⟨rfl, rfl, rfl, rfl, ?_, rfl⟩, ⟨rfl, rfl, rfl, rfl, ?_, rfl⟩⟩ <;>
    simp [transformPosition, transformDirection, connectTo, addBlock,
      GraphState.wiresAddedSince, List.append_assoc, List.drop_left]

/-- Claim C7: every `pbrMetallicRoughnessMaterial` call creates a PBR
block targeted at the fragment stage with useEnergyConservation,
useRadianceOcclusion and useHorizonOcclusion all true; the eight
non-optional inputs are always wired, the ambientOcc input is wired
exactly when a non-null socket is passed, and the call returns the
block's `lighting` output socket. -/
theorem pbr_fixed_toggles_and_wiring (a m r : Socket) (ao : Option Socket)
    (pn nw vm cp wp : Socket) (st : GraphState) :
    ((pbrMetallicRoughnessMaterial a m r ao pn nw vm cp wp st).2.blocks.headI.kind
        = BlockKind.PBRMetallicRoughnessBlock
      ∧ (pbrMetallicRoughnessMaterial a m r ao pn nw vm cp wp st).2.blocks.headI.target
          = some Stage.FRAG
      ∧ (pbrMetallicRoughnessMaterial a m r ao pn nw vm cp wp st).2.blocks.headI.useEnergyConservation
          = some true
      ∧ (pbrMetallicRoughnessMaterial a m r ao pn nw vm cp wp st).2.blocks.headI.useRadianceOcclusion
          = some true
      ∧ (pbrMetallicRoughnessMaterial a m r ao pn nw vm cp wp st).2.blocks.headI.useHorizonOcclusion
          = some true)
    ∧ (pbrMetallicRoughnessMaterial a m r ao pn nw vm cp wp st).2.wiresAddedSince st
        = [(a, ⟨st.nextId, "baseColor"⟩), (m, ⟨st.nextId, "metallic"⟩),
           (r, ⟨st.nextId, "roughness"⟩)]
          ++ (match ao with
              | some s => [(s, (⟨st.nextId, "ambientOcc"⟩ : Socket))]
              | none => [])
          ++ [(pn, ⟨st.nextId, "perturbedNormal"⟩),
              (nw, ⟨st.nextId, "worldNormal"⟩),
              (vm, ⟨st.nextId, "view"⟩),
              (cp, ⟨st.nextId, "cameraPosition"⟩),
              (wp, ⟨st.nextId, "worldPosition"⟩)]
    ∧ ((∃ s, (s, (⟨st.nextId, "ambientOcc"⟩ : Socket))
          ∈ (pbrMetallicRoughnessMaterial a m r ao pn nw vm cp wp st).2.wiresAddedSince st)
        ↔ ao.isSome = true)
    ∧ (pbrMetallicRoughnessMaterial a m r ao pn nw vm cp wp st).1
        = ⟨st.nextId, "lighting"⟩ := by
  cases ao <;>
    refine ⟨⟨rfl, rfl, rfl, rfl, rfl⟩, ?_, ?_, rfl⟩ <;>
      simp [pbrMetallicRoughnessMaterial, connectTo, addBlock,
        GraphState.wiresAddedSince, List.append_assoc, List.drop_left,
        Socket.mk.injEq]

end BSL

namespace BSL

/-- Two successive fresh-allocating runs create blocks with strictly
larger ids than the blocks of the first run, so their head blocks are
distinct. -/
theorem freshPair_heads_distinct (st p1 p2 : GraphState)
    (h1 : FreshOne st p1 ∨ FreshTwo st p1)
    (h2 : FreshOne p1 p2 ∨ FreshTwo p1 p2) :
    p2.blocks.headI.id ≠ p1.blocks.headI.id
      ∧ p2.blocks.headI ≠ p1.blocks.headI := by
  have i1 : p1.blocks.headI.id < p1.nextId := by
    rcases h1 with ⟨e, _, i⟩ | ⟨e, _, i, _⟩ <;> omega
  have i2 : p1.nextId ≤ p2.blocks.headI.id := by
    rcases h2 with ⟨e, _, i⟩ | ⟨e, _, i, _⟩ <;> omega
  refine ⟨by omega, fun h => ?_⟩
  have hid := congrArg Block.id h
  omega

/-- Claim C8: every factory function allocates fresh node objects on
every call — the created block(s) take the pre-state's fresh id(s) and
are prepended to the block list, and the returned socket or block sits
on the freshly allocated block — so two calls, even with identical
arguments, return distinct, unshared nodes and sockets: no factory
caches, pools, or reuses a previously returned node, and none is
idempotent by identity (the final clause derives the distinctness for
any pair of fresh-allocating calls). -/
theorem factories_allocate_fresh_nodes (name : String) (v : Int)
    (tex : Texture) (s1 s2 s3 s4 s5 s6 s7 s8 : Socket)
    (z w : Option Socket) (props : Option TextureBlockPropsPartial)
    (fprops : Option OutputFragColorProps) (bv : BVector) (stage : Stage)
    (st : GraphState) :
    FreshOne st (uniformCameraPosition st).2
    ∧ FreshOne st (uniformView st).2
    ∧ FreshOne st (uniformViewProjection st).2
    ∧ FreshOne st (uniformWorld st).2
    ∧ FreshOne st (vertexAttribute name st).2
    ∧ FreshOne st (float v st).2
    ∧ FreshOne st (constFloat name v st).2
    ∧ FreshOne st (uniformFloat name v st).2
    ∧ FreshOne st (sampleTexture tex s1 props st).2
    ∧ FreshOne st (transformPosition s1 s2 stage st).2
    ∧ FreshOne st (transformDirection s1 s2 stage st).2
    ∧ FreshOne st (fract s1 stage st).2
    ∧ FreshOne st (mul s1 s2 stage st).2
    ∧ FreshOne st (mulVec s1 s2 stage st).2
    ∧ FreshOne st (merge s1 s2 z w stage st).2
    ∧ FreshOne st (vecFromBabylon bv st).2
    ∧ FreshOne st (vec2 s1 s2 stage st).2
    ∧ FreshOne st (vec3 s1 s2 s3 stage st).2
    ∧ FreshOne st (vec4 s1 s2 s3 s4 stage st).2
    ∧ FreshOne st (splitVec2 s1 stage st).2
    ∧ FreshOne st (splitVec3 s1 stage st).2
    ∧ FreshOne st (xy s1 stage st).2
    ∧ FreshTwo st (xz s1 stage st).2
    ∧ FreshOne st (perturbNormal s1 s2 s3 s4 s5 st).2
    ∧ FreshOne st (pbrMetallicRoughnessMaterial s1 s2 s3 z s4 s5 s6 s7 s8 st).2
    ∧ FreshOne st (outputFragColor s1 fprops st).2
    ∧ FreshOne st (outputVertexPosition s1 st).2
    ∧ (uniformCameraPosition st).1.blockId = st.nextId
    ∧ (uniformView st).1.blockId = st.nextId
    ∧ (uniformViewProjection st).1.blockId = st.nextId
    ∧ (uniformWorld st).1.blockId = st.nextId
    ∧ (vertexAttribute name st).1.blockId = st.nextId
    ∧ (float v st).1.blockId = st.nextId
    ∧ (constFloat name v st).1.blockId = st.nextId
    ∧ (uniformFloat name v st).1.blockId = st.nextId
    ∧ (sampleTexture tex s1 props st).1
        = (sampleTexture tex s1 props st).2.blocks.headI
    ∧ (transformPosition s1 s2 stage st).1.blockId = st.nextId
    ∧ (transformDirection s1 s2 stage st).1.blockId = st.nextId
    ∧ (fract s1 stage st).1.blockId = st.nextId
    ∧ (mul s1 s2 stage st).1.blockId = st.nextId
    ∧ (mulVec s1 s2 stage st).1.blockId = st.nextId
    ∧ (merge s1 s2 z w stage st).1 = (merge s1 s2 z w stage st).2.blocks.headI
    ∧ (vecFromBabylon bv st).1.blockId = st.nextId
    ∧ (vec2 s1 s2 stage st).1.blockId = st.nextId
    ∧ (vec3 s1 s2 s3 stage st).1.blockId = st.nextId
    ∧ (vec4 s1 s2 s3 s4 stage st).1.blockId = st.nextId
    ∧ (splitVec2 s1 stage st).1 = (splitVec2 s1 stage st).2.blocks.headI
    ∧ (splitVec3 s1 stage st).1 = (splitVec3 s1 stage st).2.blocks.headI
    ∧ (xy s1 stage st).1.blockId = st.nextId
    ∧ (xz s1 stage st).1.blockId = st.nextId + 1
    ∧ (perturbNormal s1 s2 s3 s4 s5 st).1.blockId = st.nextId
    ∧ (pbrMetallicRoughnessMaterial s1 s2 s3 z s4 s5 s6 s7 s8 st).1.blockId
        = st.nextId
    ∧ (outputFragColor s1 fprops st).1
        = (outputFragColor s1 fprops st).2.blocks.headI
    ∧ (outputVertexPosition s1 st).1
        = (outputVertexPosition s1 st).2.blocks.headI
    ∧ (uniformCameraPosition (uniformCameraPosition st).2).1
        ≠ (uniformCameraPosition st).1
    ∧ (uniformView (uniformView st).2).1 ≠ (uniformView st).1
    ∧ (uniformViewProjection (uniformViewProjection st).2).1
        ≠ (uniformViewProjection st).1
    ∧ (uniformWorld (uniformWorld st).2).1 ≠ (uniformWorld st).1
    ∧ (vertexAttribute name (vertexAttribute name st).2).1
        ≠ (vertexAttribute name st).1
    ∧ (float v (float v st).2).1 ≠ (float v st).1
    ∧ (constFloat name v (constFloat name v st).2).1 ≠ (constFloat name v st).1
    ∧ (uniformFloat name v (uniformFloat name v st).2).1
        ≠ (uniformFloat name v st).1
    ∧ (sampleTexture tex s1 props (sampleTexture tex s1 props st).2).1
        ≠ (sampleTexture tex s1 props st).1
    ∧ (transformPosition s1 s2 stage (transformPosition s1 s2 stage st).2).1
        ≠ (transformPosition s1 s2 stage st).1
    ∧ (transformDirection s1 s2 stage (transformDirection s1 s2 stage st).2).1
        ≠ (transformDirection s1 s2 stage st).1
    ∧ (fract s1 stage (fract s1 stage st).2).1 ≠ (fract s1 stage st).1
    ∧ (mul s1 s2 stage (mul s1 s2 stage st).2).1 ≠ (mul s1 s2 stage st).1
    ∧ (mulVec s1 s2 stage (mulVec s1 s2 stage st).2).1
        ≠ (mulVec s1 s2 stage st).1
    ∧ (merge s1 s2 z w stage (merge s1 s2 z w stage st).2).1
        ≠ (merge s1 s2 z w stage st).1
    ∧ (vecFromBabylon bv (vecFromBabylon bv st).2).1 ≠ (vecFromBabylon bv st).1
    ∧ (vec2 s1 s2 stage (vec2 s1 s2 stage st).2).1 ≠ (vec2 s1 s2 stage st).1
    ∧ (vec3 s1 s2 s3 stage (vec3 s1 s2 s3 stage st).2).1
        ≠ (vec3 s1 s2 s3 stage st).1
    ∧ (vec4 s1 s2 s3 s4 stage (vec4 s1 s2 s3 s4 stage st).2).1
        ≠ (vec4 s1 s2 s3 s4 stage st).1
    ∧ (splitVec2 s1 stage (splitVec2 s1 stage st).2).1
        ≠ (splitVec2 s1 stage st).1
    ∧ (splitVec3 s1 stage (splitVec3 s1 stage st).2).1
        ≠ (splitVec3 s1 stage st).1
    ∧ (xy s1 stage (xy s1 stage st).2).1 ≠ (xy s1 stage st).1
    ∧ (xz s1 stage (xz s1 stage st).2).1 ≠ (xz s1 stage st).1
    ∧ (perturbNormal s1 s2 s3 s4 s5 (perturbNormal s1 s2 s3 s4 s5 st).2).1
        ≠ (perturbNormal s1 s2 s3 s4 s5 st).1
    ∧ (pbrMetallicRoughnessMaterial s1 s2 s3 z s4 s5 s6 s7 s8
          (pbrMetallicRoughnessMaterial s1 s2 s3 z s4 s5 s6 s7 s8 st).2).1
        ≠ (pbrMetallicRoughnessMaterial s1 s2 s3 z s4 s5 s6 s7 s8 st).1
    ∧ (outputFragColor s1 fprops (outputFragColor s1 fprops st).2).1
        ≠ (outputFragColor s1 fprops st).1
    ∧ (outputVertexPosition s1 (outputVertexPosition s1 st).2).1
        ≠ (outputVertexPosition s1 st).1
    ∧ (∀ p1 p2 : GraphState,
        (FreshOne st p1 ∨ FreshTwo st p1) → (FreshOne p1 p2 ∨ FreshTwo p1 p2) →
          p2.blocks.headI.id ≠ p1.blocks.headI.id
            ∧ p2.blocks.headI ≠ p1.blocks.headI) := by
  repeat' apply And.intro
  all_goals first
    | exact fun p1 p2 h1 h2 => freshPair_heads_distinct st p1 p2 h1 h2
    | rfl
    | exact ⟨rfl, rfl, rfl⟩
    | exact ⟨rfl, rfl, rfl, rfl⟩
    | (cases z <;> cases w <;> exact ⟨rfl, rfl, rfl⟩)
    | (cases z <;> cases w <;> rfl)
    | (simp only [uniformCameraPosition, uniformView, uniformViewProjection,
        uniformWorld, vertexAttribute, float, constFloat, uniformFloat,
        sampleTexture, transformPosition, transformDirection, fract, mul,
        mulVec, merge, vecFromBabylon, vec2, vec3, vec4, splitVec2,
        splitVec3, xy, xz, perturbNormal, pbrMetallicRoughnessMaterial,
        outputFragColor, outputVertexPosition, addBlock, connectTo,
        Socket.mk.injEq, Block.mk.injEq, ne_eq, not_and] <;>
        simp <;> omega)
    | (cases z <;> cases w <;>
        simp only [sampleTexture, merge, pbrMetallicRoughnessMaterial,
          outputFragColor, addBlock, connectTo, Socket.mk.injEq,
          Block.mk.injEq, ne_eq, not_and] <;>
        simp <;> omega)

/-- Claim C9 counterexample: a concrete `mulVec` call creates exactly one
node, whose display name is "scaledMeshUV"; no node named
"Mesh UV scale factor" is created inside `mulVec` (that name comes from
`vecFromBabylon`). -/
theorem mulVec_single_name_on_concrete_input :
    ((mulVec ⟨0, "output"⟩ ⟨1, "output"⟩ Stage.FRAG { nextId := 2 }).2.blocks.map
        fun b => b.name) = ["scaledMeshUV"] := by
  exact rfl

/-- Claim C9 (amended): every `mulVec` call creates exactly one node,
carrying the fixed display name "scaledMeshUV" regardless of its
arguments; the fixed display name "Mesh UV scale factor" is likewise
reused identically across unrelated calls, but by `vecFromBabylon`, not
inside `mulVec`. -/
theorem mulVec_and_vecFromBabylon_fixed_names (l r : Socket) (stage : Stage)
    (vec : BVector) (st st' : GraphState) :
    ((mulVec l r stage st).2.blocks.headI.name = "scaledMeshUV"
      ∧ (mulVec l r stage st).2.blocks.length = st.blocks.length + 1
      ∧ (mulVec l r stage st).2.blocks
          = (mulVec l r stage st).2.blocks.headI :: st.blocks)
    ∧ ((vecFromBabylon vec st').2.blocks.headI.name = "Mesh UV scale factor"
      ∧ (vecFromBabylon vec st').2.blocks.length = st'.blocks.length + 1
      ∧ (vecFromBabylon vec st').2.blocks
          = (vecFromBabylon vec st').2.blocks.headI :: st'.blocks) := by
  exact ⟨⟨rfl, rfl, rfl⟩, ⟨rfl, rfl, rfl⟩⟩

/-- Claim C10: `outputFragColor` adds exactly one wire — from the
caller's color socket to the fragment output node's `rgb` input — so the
node's other inputs, in particular its `a` and `rgba` inputs, receive no
wire from the call. -/
theorem outputFragColor_wires_only_rgb (colorRgb : Socket)
    (props : Option OutputFragColorProps) (st : GraphState) :
    (outputFragColor colorRgb props st).2.wiresAddedSince st
        = [(colorRgb, ⟨st.nextId, "rgb"⟩)]
    ∧ (outputFragColor colorRgb props st).1.id = st.nextId
    ∧ ((⟨st.nextId, "a"⟩ : Socket)
        ∉ ((outputFragColor colorRgb props st).2.wiresAddedSince st).map Prod.snd)
    ∧ ((⟨st.nextId, "rgba"⟩ : Socket)
        ∉ ((outputFragColor colorRgb props st).2.wiresAddedSince st).map Prod.snd) := by
  refine ⟨?_, rfl, ?_, ?_⟩ <;>
    simp [outputFragColor, connectTo, addBlock, GraphState.wiresAddedSince,
      List.drop_left, Socket.mk.injEq]

end BSL
